import Mathlib

/-!
Verification of the terrestria hybrid spatial/physics core.

The definitions below are a shallow embedding of the TypeScript sources,
chiefly `src/back/src/free_mode_impl.ts`, `src/back/src/spatial_component.ts`,
`src/back/src/agent_system.ts`, `src/front/src/terrestria/render_system.ts`
and the unnamed server spatial component file.  JavaScript numbers are
modelled as rationals, JavaScript `Map`s as association lists with
overwrite-on-set semantics, and thrown `GameError`s as `Except` values.
-/

namespace Terrestria

abbrev EntityId := Nat

/-- A 2-d vector of world coordinates (matter-js `Vector`). -/
structure Vec2 where
  x : ℚ
  y : ℚ
deriving Repr, DecidableEq

/-- An axis-aligned bounding box (matter-js `Bounds`: `min`/`max` points). -/
structure Bounds where
  minX : ℚ
  minY : ℚ
  maxX : ℚ
  maxY : ℚ
deriving Repr, DecidableEq

/-- The slice of a matter-js `Body` that the embedded code reads or writes:
its id, its current velocity and its bounding box. -/
structure Body where
  id : Nat
  velocity : Vec2
  bounds : Bounds
deriving Repr, DecidableEq

/-- A contact point of a collision pair (`contact.id`, `contact.vertex`).
Contact ids are strings in the source; they are modelled as an opaque `Nat`
since the code only compares them for equality. -/
structure Contact where
  id : Nat
  vertex : Vec2
deriving Repr, DecidableEq

/-- `isInside` from free_mode_impl.ts (lines 17-25): closed-rectangle
membership test. -/
def isInside (rectX rectY rectW rectH ptX ptY : ℚ) : Bool :=
  rectX ≤ ptX && ptX ≤ rectX + rectW &&
  rectY ≤ ptY && ptY ≤ rectY + rectH

/-- `isGroundContact` from free_mode_impl.ts (lines 27-43): the contact
vertex must lie in a hot spot of half the bounding-box width and height 8,
horizontally centred, placed at `yMax - 0.5 * hotSpotH`. -/
def isGroundContact (body : Body) (contact : Contact) : Bool :=
  let xMin := body.bounds.minX
  let xMax := body.bounds.maxX
  let yMax := body.bounds.maxY
  let w := xMax - xMin
  let hotSpotW := (1 / 2 : ℚ) * w
  let hotSpotH : ℚ := 8
  let hotSpotX := xMin + (1 / 2 : ℚ) * (w - hotSpotW)
  let hotSpotY := yMax - (1 / 2 : ℚ) * hotSpotH
  isInside hotSpotX hotSpotY hotSpotW hotSpotH contact.vertex.x contact.vertex.y

/-- Modelled from the spec: the hot spot as §4.4 words it, "half the box
width, a fixed small height, flush with the bottom edge", i.e. sitting
immediately inside the bottom edge (its lower side coinciding with `yMax`).
This is the comparison predicate for the refinement claim about
`isGroundContact`, not a translation of the source. -/
def groundHotSpotFlushInside (body : Body) (contact : Contact) : Bool :=
  let xMin := body.bounds.minX
  let xMax := body.bounds.maxX
  let yMax := body.bounds.maxY
  let w := xMax - xMin
  let hotSpotW := (1 / 2 : ℚ) * w
  let hotSpotH : ℚ := 8
  let hotSpotX := xMin + (1 / 2 : ℚ) * (w - hotSpotW)
  let hotSpotY := yMax - hotSpotH
  isInside hotSpotX hotSpotY hotSpotW hotSpotH contact.vertex.x contact.vertex.y

/-- Modelled from the spec: the `Direction` enumeration
(src/back/src/common/definitions is not among the provided sources); the
four directional inputs §4.3 speaks of. -/
inductive Direction
  | UP
  | DOWN
  | LEFT
  | RIGHT
deriving Repr, DecidableEq

/-- Modelled from the spec: `directionToVector` (common/geometry is not
among the provided sources); the unit vector of a movement direction, with
y growing downward — gravity integrates toward larger y, as the ground hot
spot sitting at the bounds maximum y shows. -/
def directionToVector : Direction → Vec2
  | Direction.UP => ⟨0, -1⟩
  | Direction.DOWN => ⟨0, 1⟩
  | Direction.LEFT => ⟨-1, 0⟩
  | Direction.RIGHT => ⟨1, 0⟩

/-- Modelled from the spec: `vecMult` (common/geometry is not among the
provided sources); scalar multiplication of a vector. -/
def vecMult (v : Vec2) (s : ℚ) : Vec2 := ⟨v.x * s, v.y * s⟩

/-- Modelled from the spec (§3, §4.2): `Span2d` (common/span is not among
the provided sources) maps a row index to a list of closed horizontal
intervals [a, b]. -/
structure Span2d where
  spans : List (Int × List (Int × Int))
deriving Repr, DecidableEq

/-- Modelled from the spec (§4.2): `contains(x, y)` searches the row's
interval list for one containing x. -/
def Span2d.contains (s : Span2d) (x y : Int) : Bool :=
  match s.spans.lookup y with
  | none => false
  | some row => row.any fun ab => ab.1 ≤ x && x ≤ ab.2

/-- Modelled from the spec: `BLOCK_SZ_WLD` (common/constants is not among
the provided sources) is the fixed world-units cell size; no claim depends
on its specific value. -/
def BLOCK_SZ_WLD : ℚ := 64

/-- `PLAYER_VELOCITY_H` from free_mode_impl.ts line 14. -/
def PLAYER_VELOCITY_H : ℚ := 6

/-- `PLAYER_VELOCITY_V` from free_mode_impl.ts line 15. -/
def PLAYER_VELOCITY_V : ℚ := 10

/-- The slice of `FreeModeSubcomponent` that free_mode_impl.ts reads:
entity id, physics body, the world-position accessors x()/y(), and the
dirty flag.  Modelled from the spec (§3) where not forced by
free_mode_impl.ts: free_mode_subcomponent.ts is not among the provided
sources. -/
structure FreeModeSubcomponent where
  entityId : EntityId
  body : Body
  x : ℚ
  y : ℚ
  dirty : Bool
deriving Repr, DecidableEq

/-- The grid coordinates probed by `FreeModeImpl._tryLeaveGravRegion`
(free_mode_impl.ts lines 219-245): the entity centre advanced by half a
block plus a quarter block in the movement direction, divided by the block
size and floored. -/
def probeGrid (c : FreeModeSubcomponent) (direction : Direction) : Int × Int :=
  let v := vecMult (directionToVector direction) BLOCK_SZ_WLD
  let u := directionToVector direction
  let probeLen := BLOCK_SZ_WLD * (1 / 4 : ℚ)
  let probeX := (1 / 2 : ℚ) * v.x + u.x * probeLen
  let probeY := (1 / 2 : ℚ) * v.y + u.y * probeLen
  let centreX := c.x + (1 / 2 : ℚ) * BLOCK_SZ_WLD
  let centreY := c.y + (1 / 2 : ℚ) * BLOCK_SZ_WLD
  (⌊(centreX + probeX) / BLOCK_SZ_WLD⌋, ⌊(centreY + probeY) / BLOCK_SZ_WLD⌋)

/-- Result of `_tryLeaveGravRegion`: the returned boolean (`fired`) and an
explicit trace of whether the `attemptModeTransitionFn` callback was
invoked (`checked`). -/
structure TryLeaveResult where
  fired : Bool
  checked : Bool
deriving Repr, DecidableEq

/-- `FreeModeImpl._tryLeaveGravRegion` (free_mode_impl.ts lines 219-245):
when the probed grid cell is outside the gravity region, the mode
transition callback is invoked and its boolean is returned; otherwise the
method returns false without consulting the callback.  The callback is
passed as a pure boolean function; its own state mutation happens outside
this method. -/
def tryLeaveGravRegion (gravRegion : Span2d)
    (attemptModeTransitionFn : EntityId → ℚ → ℚ → Direction → Bool)
    (c : FreeModeSubcomponent) (direction : Direction) : TryLeaveResult :=
  let gridX := (probeGrid c direction).1
  let gridY := (probeGrid c direction).2
  if !(gravRegion.contains gridX gridY) then
    { fired := attemptModeTransitionFn c.entityId ((gridX : ℚ) * BLOCK_SZ_WLD)
        ((gridY : ℚ) * BLOCK_SZ_WLD) direction,
      checked := true }
  else
    { fired := false, checked := false }

/-- JS-Map-style association-list overwrite: `Map.prototype.set`. -/
def mapSet {α : Type} (m : List (Nat × α)) (k : Nat) (v : α) : List (Nat × α) :=
  match m with
  | [] => [(k, v)]
  | (k0, v0) :: rest => if k0 = k then (k, v) :: rest else (k0, v0) :: mapSet rest k v

/-- JS-Map-style association-list removal: `Map.prototype.delete`. -/
def mapDelete {α : Type} (m : List (Nat × α)) (k : Nat) : List (Nat × α) :=
  m.filter fun p => p.1 != k

/-- `FreeModeImpl._bodyGrounded` (free_mode_impl.ts lines 215-217):
membership of the entity in the `_grounded` map (entity id → contact id). -/
def bodyGrounded (grounded : List (EntityId × Nat)) (entityId : EntityId) : Bool :=
  (grounded.lookup entityId).isSome

/-- Observable outcome of one `FreeModeImpl.moveAgent` call: the returned
boolean, the body velocity after the call, whether the mode-transition
callback was consulted, whether it fired, and whether `_postMoveEvent`
ran. -/
structure MoveOutcome where
  ret : Bool
  velocity : Vec2
  transitionChecked : Bool
  transitionFired : Bool
  postedMoveEvent : Bool
deriving Repr, DecidableEq

/-- `FreeModeImpl.moveAgent` (free_mode_impl.ts lines 153-189).  When
`_tryLeaveGravRegion` fires, the velocity-mutation block is skipped; inside
the block, UP is rejected unless grounded, DOWN returns early with
success, and otherwise the non-zero component of the direction-scaled
velocity overrides the body's corresponding velocity component. -/
def moveAgent (gravRegion : Span2d)
    (attemptModeTransitionFn : EntityId → ℚ → ℚ → Direction → Bool)
    (grounded : List (EntityId × Nat))
    (c : FreeModeSubcomponent) (direction : Direction) : MoveOutcome :=
  let t := tryLeaveGravRegion gravRegion attemptModeTransitionFn c direction
  if t.fired then
    { ret := true, velocity := c.body.velocity, transitionChecked := t.checked,
      transitionFired := true, postedMoveEvent := true }
  else if direction = Direction.UP ∧ bodyGrounded grounded c.entityId = false then
    { ret := false, velocity := c.body.velocity, transitionChecked := t.checked,
      transitionFired := false, postedMoveEvent := false }
  else if direction = Direction.DOWN then
    { ret := true, velocity := c.body.velocity, transitionChecked := t.checked,
      transitionFired := false, postedMoveEvent := false }
  else
    let dir := directionToVector direction
    let vec : Vec2 := ⟨dir.x * PLAYER_VELOCITY_H, dir.y * PLAYER_VELOCITY_V⟩
    let velocity : Vec2 :=
      ⟨if vec.x ≠ 0 then vec.x else c.body.velocity.x,
       if vec.y ≠ 0 then vec.y else c.body.velocity.y⟩
    { ret := true, velocity := velocity, transitionChecked := t.checked,
      transitionFired := false, postedMoveEvent := true }

/-- A matter-js collision pair as the two handlers read it: the engine pair
id, the two body ids, `activeContacts` (read by the collisionActive
handler) and `contacts` (read by the collisionEnd handler). -/
structure Pair where
  id : Nat
  bodyAId : Nat
  bodyBId : Nat
  activeContacts : List Contact
  contacts : List Contact
deriving Repr, DecidableEq

/-- The mutable state of `FreeModeImpl` that the claims touch: the physics
world's body list, `_componentsByBodyId`, the keys of `_collisions` (the
stored pair value is never read, only `has`/`set`/`delete` are used),
`_grounded`, and the list of posted ENTITY_COLLISION events as
(entityA, entityB). -/
structure ImplState where
  worldBodies : List Body
  componentsByBodyId : List (Nat × FreeModeSubcomponent)
  collisions : List Nat
  grounded : List (EntityId × Nat)
  events : List (EntityId × EntityId)
deriving Repr, DecidableEq

/-- `this._componentsByBodyId.get(bodyId)`. -/
def lookupByBody (st : ImplState) (bodyId : Nat) : Option FreeModeSubcomponent :=
  st.componentsByBodyId.lookup bodyId

/-- One arm of the per-contact loop of the collisionActive handler
(free_mode_impl.ts lines 85-87 resp. 88-90): when the body resolved to a
component and the contact grounds it, overwrite that entity's `_grounded`
entry with the contact id. -/
def groundContactCheck (oc : Option FreeModeSubcomponent)
    (grounded : List (EntityId × Nat)) (contact : Contact) :
    List (EntityId × Nat) :=
  match oc with
  | some c0 =>
    if isGroundContact c0.body contact then mapSet grounded c0.entityId contact.id
    else grounded
  | none => grounded

/-- Body of the per-contact loop of the collisionActive handler
(free_mode_impl.ts lines 84-91): the grounding check runs first for body
A, then for body B. -/
def groundContactStep (a b : Option FreeModeSubcomponent)
    (grounded : List (EntityId × Nat)) (contact : Contact) :
    List (EntityId × Nat) :=
  groundContactCheck b (groundContactCheck a grounded contact) contact

/-- The collisionActive handler for one pair (free_mode_impl.ts lines
65-93): when the pair id is not yet in `_collisions` it is inserted and,
if both bodies resolve to tracked components, one ENTITY_COLLISION event
is posted; then every active contact updates the grounded bookkeeping. -/
def collisionActivePair (st : ImplState) (pair : Pair) : ImplState :=
  let a := lookupByBody st pair.bodyAId
  let b := lookupByBody st pair.bodyBId
  let st1 :=
    if st.collisions.contains pair.id then st
    else
      let withPair := { st with collisions := pair.id :: st.collisions }
      match a, b with
      | some ac, some bc =>
        { withPair with events := withPair.events ++ [(ac.entityId, bc.entityId)] }
      | _, _ => withPair
  { st1 with grounded := pair.activeContacts.foldl (groundContactStep a b) st1.grounded }

/-- One arm of the per-contact loop of the collisionEnd handler
(free_mode_impl.ts lines 105-109 resp. 110-114): when the body resolved to
a component and the ending contact's id equals the entity's stored
contact id, delete that entity's `_grounded` entry. -/
def groundedEndCheck (oc : Option FreeModeSubcomponent)
    (grounded : List (EntityId × Nat)) (contact : Contact) :
    List (EntityId × Nat) :=
  match oc with
  | some c0 =>
    if grounded.lookup c0.entityId = some contact.id then mapDelete grounded c0.entityId
    else grounded
  | none => grounded

/-- Body of the per-contact loop of the collisionEnd handler
(free_mode_impl.ts lines 104-115): the clearing check runs first for body
A, then for body B. -/
def groundedEndStep (a b : Option FreeModeSubcomponent)
    (grounded : List (EntityId × Nat)) (contact : Contact) :
    List (EntityId × Nat) :=
  groundedEndCheck b (groundedEndCheck a grounded contact) contact

/-- The collisionEnd handler for one pair (free_mode_impl.ts lines
95-117): the pair id is removed from `_collisions` if present, then every
contact of the pair is offered to the grounded-clearing check. -/
def collisionEndPair (st : ImplState) (pair : Pair) : ImplState :=
  let a := lookupByBody st pair.bodyAId
  let b := lookupByBody st pair.bodyBId
  let st1 :=
    if st.collisions.contains pair.id then
      { st with collisions := st.collisions.filter fun i => i != pair.id }
    else st
  { st1 with grounded := pair.contacts.foldl (groundedEndStep a b) st1.grounded }

/-- matter-js `Bounds.overlaps` (external dependency, modelled from the
library): axis-aligned bounding boxes overlap when each interval pair
meets with inclusive comparisons. -/
def overlaps (boundsA boundsB : Bounds) : Bool :=
  boundsA.minX ≤ boundsB.maxX && boundsA.maxX ≥ boundsB.minX &&
  boundsA.maxY ≥ boundsB.minY && boundsA.minY ≤ boundsB.maxY

/-- matter-js `Query.region` with `outside = false` (external dependency,
modelled from the library): the bodies whose bounds overlap the region. -/
def queryRegion (bodies : List Body) (bounds : Bounds) : List Body :=
  bodies.filter fun body => overlaps body.bounds bounds

/-- `FreeModeImpl.entitiesWithinRadius` (free_mode_impl.ts lines 191-213):
query the world for bodies overlapping the square of half-side r around
(x, y), then collect the entity ids of bodies registered in
`_componentsByBodyId`; the `Set` is modelled as a duplicate-free list. -/
def entitiesWithinRadius (st : ImplState) (x y r : ℚ) : List EntityId :=
  (queryRegion st.worldBodies ⟨x - r, y - r, x + r, y + r⟩).foldl
    (fun entities body =>
      match st.componentsByBodyId.lookup body.id with
      | some c => if entities.contains c.entityId then entities else entities ++ [c.entityId]
      | none => entities)
    []

/-- Nonempty intersection of two closed axis-aligned rectangles, stated
point-wise; the specification-level meaning of "the bounding region
intersects the square". -/
def RectIntersects (A B : Bounds) : Prop :=
  ∃ px py : ℚ,
    A.minX ≤ px ∧ px ≤ A.maxX ∧ A.minY ≤ py ∧ py ≤ A.maxY ∧
    B.minX ≤ px ∧ px ≤ B.maxX ∧ B.minY ≤ py ∧ py ≤ B.maxY

/-- `SpatialMode` from the unnamed server spatial component file (also
common/spatial_packet for CSpatial). -/
inductive SpatialMode
  | GRID_MODE
  | FREE_MODE
deriving Repr, DecidableEq

/-- The slice of `GridModeSubcomponent` that the spatial components read:
the x()/y() accessors and the dirty flag.  Modelled from the spec (§3)
where not forced by the callers: grid_mode_subcomponent.ts is not among
the provided sources. -/
structure GridModeSubcomponent where
  x : ℚ
  y : ℚ
  dirty : Bool
deriving Repr, DecidableEq

/-- `CSpatial` from src/back/src/spatial_component.ts: a mode discriminator
and the two subcomponents. -/
structure CSpatial where
  currentMode : SpatialMode
  gridMode : GridModeSubcomponent
  freeMode : FreeModeSubcomponent
deriving Repr, DecidableEq

/-- `CSpatial.isDirty` (spatial_component.ts lines 33-40): routes through
the current subcomponent. -/
def CSpatial.isDirty (c : CSpatial) : Bool :=
  if c.currentMode = SpatialMode.GRID_MODE then c.gridMode.dirty
  else c.freeMode.dirty

/-- `CSpatial.x` (spatial_component.ts lines 58-62). -/
def CSpatial.x (c : CSpatial) : ℚ :=
  if c.currentMode = SpatialMode.GRID_MODE then c.gridMode.x else c.freeMode.x

/-- `CSpatial.y` (spatial_component.ts lines 64-68). -/
def CSpatial.y (c : CSpatial) : ℚ :=
  if c.currentMode = SpatialMode.GRID_MODE then c.gridMode.y else c.freeMode.y

/-- `ServerSpatialComponent` from the unnamed server spatial component
file (src/unnamed/part_002). -/
structure ServerSpatialComponent where
  currentMode : SpatialMode
  gridMode : GridModeSubcomponent
  freeMode : FreeModeSubcomponent
deriving Repr, DecidableEq

/-- `ServerSpatialComponent.isDirty` (part_002 lines 31-33): returns the
grid-mode dirty flag unconditionally — the free-mode term is commented out
in the source. -/
def ServerSpatialComponent.isDirty (c : ServerSpatialComponent) : Bool :=
  c.gridMode.dirty

/-- `ServerSpatialComponent.x` (part_002 lines 40-44). -/
def ServerSpatialComponent.x (c : ServerSpatialComponent) : ℚ :=
  if c.currentMode = SpatialMode.GRID_MODE then c.gridMode.x else c.freeMode.x

/-- `ServerSpatialComponent.y` (part_002 lines 46-50). -/
def ServerSpatialComponent.y (c : ServerSpatialComponent) : ℚ :=
  if c.currentMode = SpatialMode.GRID_MODE then c.gridMode.y else c.freeMode.y

/-- A thrown `GameError` (common/error), carrying its message. -/
structure GameError where
  msg : String
deriving Repr, DecidableEq

/-- The slice of the render system's per-animation record that
`playAnimation` consults; the sprite handle and scheduling fields play no
part in the claims. -/
structure Animation where
  endFrame : Option String
  endFrameDelayMs : Option Nat
deriving Repr, DecidableEq

/-- The slice of `SpriteRenderComponent`/`CSprite` that `playAnimation`
reads: the `animatedSprites` map from animation name to animation. -/
structure CSprite where
  animatedSprites : List (String × Animation)
deriving Repr, DecidableEq

/-- `RenderSystem.playAnimation` (render_system.ts lines 445-453 and the
identical copy concatenated into free_mode_impl.ts): looking up an unknown
animation name throws a `GameError`; on success the call stages the
animation and returns true. -/
def playAnimation (entityId : EntityId) (c : CSprite) (name : String) :
    Except GameError Bool :=
  match c.animatedSprites.lookup name with
  | none =>
    Except.error ⟨"Entity " ++ toString entityId ++ " has no animation " ++ name⟩
  | some _ => Except.ok true

/-- A JavaScript `Map` with numeric keys: entries live in internal slots,
not as object properties. -/
structure JsMap (α : Type) where
  entries : List (Nat × α)
deriving Repr, DecidableEq

/-- A JavaScript property key as the `in` operator sees it: a number used
as a key is coerced to its canonical numeric string, which never collides
with the identifier-like property names of `Map.prototype`; the two
constructors encode that disjointness. -/
inductive JsPropertyKey
  | str (s : String)
  | num (n : Nat)
deriving Repr, DecidableEq, BEq

/-- The property names reachable on a `Map` instance (the
`Map.prototype` methods and accessors); a `Map`'s entries are not among
its properties. -/
def mapPrototypeProperties : List JsPropertyKey :=
  [JsPropertyKey.str "constructor", JsPropertyKey.str "clear",
   JsPropertyKey.str "delete", JsPropertyKey.str "entries",
   JsPropertyKey.str "forEach", JsPropertyKey.str "get",
   JsPropertyKey.str "has", JsPropertyKey.str "keys",
   JsPropertyKey.str "set", JsPropertyKey.str "size",
   JsPropertyKey.str "values"]

/-- The JavaScript `in` operator applied to a `Map` object: true exactly
when the key names a property of the object (own or inherited), never an
entry. -/
def jsInMap {α : Type} (key : JsPropertyKey) (_ : JsMap α) : Bool :=
  mapPrototypeProperties.contains key

/-- `AgentComponent` from src/back/src/agent_system.ts lines 4-23. -/
structure AgentComponent where
  entityId : EntityId
  pinataId : String
  pinataToken : String
  dirty : Bool
deriving Repr, DecidableEq

/-- `AgentSystem` state (agent_system.ts line 26): the `_components` map. -/
structure AgentSystem where
  components : JsMap AgentComponent
deriving Repr, DecidableEq

/-- `AgentSystem.addComponent` (agent_system.ts lines 38-40):
`this._components.set(component.entityId, component)`. -/
def AgentSystem.addComponent (s : AgentSystem) (component : AgentComponent) :
    AgentSystem :=
  { s with components := ⟨mapSet s.components.entries component.entityId component⟩ }

/-- `AgentSystem.hasComponent` (agent_system.ts lines 42-44): the source
tests `id in this._components`, i.e. object-property membership on the
`Map`, not entry membership. -/
def AgentSystem.hasComponent (s : AgentSystem) (id : EntityId) : Bool :=
  jsInMap (JsPropertyKey.num id) s.components

/-- `AgentSystem.getComponent` (agent_system.ts lines 46-52):
`Map.prototype.get`, throwing a `GameError` when absent. -/
def AgentSystem.getComponent (s : AgentSystem) (id : EntityId) :
    Except GameError AgentComponent :=
  match s.components.entries.lookup id with
  | none => Except.error ⟨"No agent component for entity " ++ toString id⟩
  | some c => Except.ok c

/-- Concrete free-mode component used by witnesses. -/
def freeCompW : FreeModeSubcomponent :=
  { entityId := 1, body := { id := 11, velocity := ⟨2, 3⟩, bounds := ⟨0, 0, 16, 16⟩ },
    x := 0, y := 0, dirty := false }

/-- Concrete body used by the hot-spot counterexample. -/
def bodyW : Body := { id := 7, velocity := ⟨0, 0⟩, bounds := ⟨0, 0, 16, 16⟩ }

/-- A contact 2 units below the bottom edge of `bodyW`, horizontally
centred: inside the code's hot spot, outside a flush-inside hot spot. -/
def contactOnEdgeW : Contact := { id := 3, vertex := ⟨8, 18⟩ }

/-- Concrete grid-mode subcomponent used by witnesses. -/
def gridSubW : GridModeSubcomponent := { x := 1, y := 2, dirty := true }

/-- Concrete `CSpatial` in grid mode used by the routing witness. -/
def cSpatialGridW : CSpatial :=
  { currentMode := SpatialMode.GRID_MODE, gridMode := gridSubW, freeMode := freeCompW }

/-- Concrete `ServerSpatialComponent` in free mode whose free-mode dirty
flag disagrees with the grid-mode one. -/
def serverSpatialW : ServerSpatialComponent :=
  { currentMode := SpatialMode.FREE_MODE,
    gridMode := { x := 1, y := 2, dirty := false },
    freeMode := { freeCompW with dirty := true } }

/-- Concrete animation record used by the playAnimation witness. -/
def animW : Animation := { endFrame := none, endFrameDelayMs := none }

/-- Second concrete free-mode component (body id 12, entity 2) used by the
collision witnesses. -/
def comp2W : FreeModeSubcomponent :=
  { entityId := 2, body := { id := 12, velocity := ⟨0, 0⟩, bounds := ⟨0, 0, 16, 16⟩ },
    x := 0, y := 0, dirty := false }

/-- Implementation state tracking the two witness components with no
active collision pairs. -/
def stCollW : ImplState :=
  { worldBodies := [], componentsByBodyId := [(11, freeCompW), (12, comp2W)],
    collisions := [], grounded := [], events := [] }

/-- A collision pair between the two witness bodies. -/
def pairCollW : Pair :=
  { id := 4, bodyAId := 11, bodyBId := 12, activeContacts := [], contacts := [] }

/-- A contact inside the witness body's ground hot spot. -/
def groundCtW : Contact := { id := 9, vertex := ⟨8, 14⟩ }

/-- Implementation state with entity 2 grounded through contact 5. -/
def stEndW : ImplState :=
  { worldBodies := [], componentsByBodyId := [], collisions := [],
    grounded := [(2, 5)], events := [] }

/-- An ending pair whose only contact id (9) differs from the stored
grounding contact id (5) of `stEndW`. -/
def pairEndW : Pair :=
  { id := 4, bodyAId := 11, bodyBId := 12, activeContacts := [],
    contacts := [groundCtW] }

/-- Implementation state for the region-query witness: one tracked body in
the world. -/
def st8W : ImplState :=
  { worldBodies := [freeCompW.body], componentsByBodyId := [(11, freeCompW)],
    collisions := [], grounded := [], events := [] }

/-- Witness gravity region with no rows: every probe lands outside. -/
def gravEmptyW : Span2d := ⟨[]⟩

/-- Witness gravity region covering row -1: the UP probe from `freeCompW`
stays inside. -/
def gravRowNeg1W : Span2d := ⟨[(-1, [(-1000, 1000)])]⟩

/-- Witness gravity region covering row 0: the LEFT probe from `freeCompW`
stays inside. -/
def gravRow0W : Span2d := ⟨[(0, [(-1000, 1000)])]⟩

section Lemmas

/-- `Map.set` then `Map.get` at the same key yields the stored value. -/
theorem lookup_mapSet_self {α : Type} (m : List (Nat × α)) (k : Nat) (v : α) :
    (mapSet m k v).lookup k = some v := by
  induction m with
  | nil => simp [mapSet, List.lookup]
  | cons p rest ih =>
    by_cases h : p.1 = k
    · simp [mapSet, h, List.lookup]
    · simpa [mapSet, h, List.lookup, beq_eq_false_iff_ne.mpr (Ne.symm h)] using ih

/-- `Map.set` leaves other keys untouched. -/
theorem lookup_mapSet_ne {α : Type} (m : List (Nat × α)) (k k2 : Nat) (v : α)
    (h : k2 ≠ k) : (mapSet m k v).lookup k2 = m.lookup k2 := by
  induction m with
  | nil => simp [mapSet, List.lookup, beq_eq_false_iff_ne.mpr h]
  | cons p rest ih =>
    by_cases h0 : p.1 = k
    · subst h0
      simp [mapSet, List.lookup, beq_eq_false_iff_ne.mpr h]
    · by_cases h2 : p.1 = k2
      · subst h2
        simp [mapSet, h0, List.lookup]
      · simpa [mapSet, h0, List.lookup, beq_eq_false_iff_ne.mpr (Ne.symm h2)] using ih

/-- `Map.delete` then `Map.get` at the same key yields nothing. -/
theorem lookup_mapDelete_self {α : Type} (m : List (Nat × α)) (k : Nat) :
    (mapDelete m k).lookup k = none := by
  induction m with
  | nil => rfl
  | cons p rest ih =>
    by_cases h : p.1 = k
    · have hb : (p.1 != k) = false := by simp [h]
      simpa [mapDelete, List.filter, hb] using ih
    · have hb : (p.1 != k) = true := by simp [h]
      simpa [mapDelete, List.filter, hb, List.lookup,
             beq_eq_false_iff_ne.mpr (Ne.symm h)] using ih

/-- `Map.delete` leaves other keys untouched. -/
theorem lookup_mapDelete_ne {α : Type} (m : List (Nat × α)) (k k2 : Nat)
    (h : k2 ≠ k) : (mapDelete m k).lookup k2 = m.lookup k2 := by
  induction m with
  | nil => rfl
  | cons p rest ih =>
    by_cases h0 : p.1 = k
    · have hb : (p.1 != k) = false := by simp [h0]
      rw [show List.lookup k2 (p :: rest) = List.lookup k2 rest by
        simp [List.lookup, beq_eq_false_iff_ne.mpr (h0 ▸ h)]]
      simpa [mapDelete, List.filter, hb] using ih
    · have hb : (p.1 != k) = true := by simp [h0]
      by_cases h2 : p.1 = k2
      · subst h2
        simp [mapDelete, List.filter, hb, List.lookup]
      · simpa [mapDelete, List.filter, hb, List.lookup,
               beq_eq_false_iff_ne.mpr (Ne.symm h2)] using ih

/-- A grounding check only ever writes the current contact id, so an
entry already holding it survives the check. -/
theorem groundContactCheck_lookup_eq (oc : Option FreeModeSubcomponent)
    (g : List (EntityId × Nat)) (ct : Contact) (e : EntityId)
    (h : g.lookup e = some ct.id) :
    (groundContactCheck oc g ct).lookup e = some ct.id := by
  cases oc with
  | none => exact h
  | some c0 =>
    unfold groundContactCheck
    by_cases hg : isGroundContact c0.body ct
    · by_cases he : c0.entityId = e
      · subst he
        simp [hg, lookup_mapSet_self]
      · simp [hg, lookup_mapSet_ne _ _ _ _ (Ne.symm he), h]
    · simp [hg, h]

/-- A clearing check for an ending contact whose id differs from the
stored one leaves the entry in place. -/
theorem groundedEndCheck_preserves (oc : Option FreeModeSubcomponent)
    (g : List (EntityId × Nat)) (ct : Contact) (e : EntityId) (i : Nat)
    (h : g.lookup e = some i) (hne : ct.id ≠ i) :
    (groundedEndCheck oc g ct).lookup e = some i := by
  cases oc with
  | none => exact h
  | some c0 =>
    unfold groundedEndCheck
    by_cases hd : g.lookup c0.entityId = some ct.id
    · have he : c0.entityId ≠ e := by
        intro hh
        rw [hh, h] at hd
        exact hne (Option.some.inj hd).symm
      simp [hd, lookup_mapDelete_ne _ _ _ (Ne.symm he), h]
    · simp [hd, h]

/-- A clearing check cannot resurrect an absent entry. -/
theorem groundedEndCheck_none (oc : Option FreeModeSubcomponent)
    (g : List (EntityId × Nat)) (ct : Contact) (e : EntityId)
    (h : g.lookup e = none) :
    (groundedEndCheck oc g ct).lookup e = none := by
  cases oc with
  | none => exact h
  | some c0 =>
    unfold groundedEndCheck
    by_cases hd : g.lookup c0.entityId = some ct.id
    · by_cases he : c0.entityId = e
      · subst he
        simp [hd, lookup_mapDelete_self]
      · simp [hd, lookup_mapDelete_ne _ _ _ (Ne.symm he), h]
    · simp [hd, h]

/-- Folding the collisionEnd per-contact loop over contacts none of which
carries the stored id leaves the stored entry in place. -/
theorem foldl_groundedEndStep_preserves (a b : Option FreeModeSubcomponent)
    (contacts : List Contact) (g : List (EntityId × Nat)) (e : EntityId) (i : Nat)
    (h : g.lookup e = some i) (hne : ∀ ct ∈ contacts, ct.id ≠ i) :
    (contacts.foldl (groundedEndStep a b) g).lookup e = some i := by
  induction contacts generalizing g with
  | nil => simpa using h
  | cons ct rest ih =>
    simp only [List.foldl_cons]
    apply ih
    · exact groundedEndCheck_preserves b _ ct e i
        (groundedEndCheck_preserves a g ct e i h (hne ct (List.mem_cons_self ct rest)))
        (hne ct (List.mem_cons_self ct rest))
    · intro ct2 hct2
      exact hne ct2 (List.mem_cons_of_mem ct hct2)

/-- Membership in the entity-collecting fold of `entitiesWithinRadius`:
an id comes either from the accumulator or from a queried body registered
in the body-id table. -/
theorem mem_entitiesFold (st : ImplState) (bodies : List Body)
    (acc : List EntityId) (e : EntityId) :
    (e ∈ bodies.foldl
        (fun entities body =>
          match st.componentsByBodyId.lookup body.id with
          | some c =>
            if entities.contains c.entityId then entities else entities ++ [c.entityId]
          | none => entities)
        acc) ↔
      (e ∈ acc ∨ ∃ b ∈ bodies, ∃ c,
        st.componentsByBodyId.lookup b.id = some c ∧ c.entityId = e) := by
  induction bodies generalizing acc with
  | nil => simp
  | cons b rest ih =>
    simp only [List.foldl_cons]
    rw [ih]
    cases hb : st.componentsByBodyId.lookup b.id with
    | none =>
      simp only [hb, List.mem_cons]
      constructor
      · rintro (h | ⟨b2, hb2, c2, hc2, he2⟩)
        · exact Or.inl h
        · exact Or.inr ⟨b2, Or.inr hb2, c2, hc2, he2⟩
      · rintro (h | ⟨b2, rfl | hb2, c2, hc2, he2⟩)
        · exact Or.inl h
        · rw [hb] at hc2
          cases hc2
        · exact Or.inr ⟨b2, hb2, c2, hc2, he2⟩
    | some c =>
      by_cases hcon : acc.contains c.entityId = true
      · have hmem : c.entityId ∈ acc := List.elem_iff.mp hcon
        simp only [hb, hcon, if_true, List.mem_cons]
        constructor
        · rintro (h | ⟨b2, hb2, c2, hc2, he2⟩)
          · exact Or.inl h
          · exact Or.inr ⟨b2, Or.inr hb2, c2, hc2, he2⟩
        · rintro (h | ⟨b2, rfl | hb2, c2, hc2, he2⟩)
          · exact Or.inl h
          · rw [hb] at hc2
            cases hc2
            exact Or.inl (he2 ▸ hmem)
          · exact Or.inr ⟨b2, hb2, c2, hc2, he2⟩
      · simp only [hb, hcon, if_false, List.mem_cons]
        constructor
        · rintro (h | ⟨b2, hb2, c2, hc2, he2⟩)
          · rcases List.mem_append.mp h with h2 | h2
            · exact Or.inl h2
            · refine Or.inr ⟨b, Or.inl rfl, c, hb, ?_⟩
              have h3 : e = c.entityId := by simpa using h2
              exact h3.symm
          · exact Or.inr ⟨b2, Or.inr hb2, c2, hc2, he2⟩
        · rintro (h | ⟨b2, rfl | hb2, c2, hc2, he2⟩)
          · exact Or.inl (List.mem_append.mpr (Or.inl h))
          · rw [hb] at hc2
            cases hc2
            exact Or.inl (List.mem_append.mpr (Or.inr (by simp [he2])))
          · exact Or.inr ⟨b2, hb2, c2, hc2, he2⟩

/-- matter-js bounds overlap agrees with nonempty intersection of the two
closed rectangles, for well-formed bounds. -/
theorem overlaps_iff_rectIntersects (A B : Bounds)
    (hA1 : A.minX ≤ A.maxX) (hA2 : A.minY ≤ A.maxY)
    (hB1 : B.minX ≤ B.maxX) (hB2 : B.minY ≤ B.maxY) :
    overlaps A B = true ↔ RectIntersects A B := by
  unfold overlaps RectIntersects
  simp only [Bool.and_eq_true, decide_eq_true_eq, ge_iff_le]
  constructor
  · rintro ⟨⟨⟨h1, h2⟩, h3⟩, h4⟩
    refine ⟨max A.minX B.minX, max A.minY B.minY,
      le_max_left _ _, max_le hA1 h2, le_max_left _ _, max_le hA2 h3,
      le_max_right _ _, max_le h1 hB1, le_max_right _ _, max_le h4 hB2⟩
  · rintro ⟨px, py, h1, h2, h3, h4, h5, h6, h7, h8⟩
    refine ⟨⟨⟨by linarith, by linarith⟩, by linarith⟩, by linarith⟩

end Lemmas

/-- C5 counterexample: for the 16×16 body `bodyW`, the contact at
(8, 18) — 2 units below the bounding box's bottom edge — is accepted by
the code's `isGroundContact`, but lies outside a hot spot that sits flush
immediately inside the bottom edge, so the claim's placement of the hot
spot is refuted at this input. -/
theorem isGroundContact_straddles_bottom_edge_cex :
    isGroundContact bodyW contactOnEdgeW = true ∧
    groundHotSpotFlushInside bodyW contactOnEdgeW = false := by
  constructor <;>
    norm_num [isGroundContact, groundHotSpotFlushInside, isInside, bodyW, contactOnEdgeW]

/-- C5 (amended): a contact grounds a body exactly when its vertex lies in
the closed rectangle of width half the bounding-box width, horizontally
centred, and of height 8 vertically centred on the bottom edge of the
bounding box (extending 4 units above and 4 units below `yMax`). -/
theorem isGroundContact_iff_hot_spot (body : Body) (contact : Contact) :
    isGroundContact body contact = true ↔
      (body.bounds.minX + (body.bounds.maxX - body.bounds.minX) / 4 ≤ contact.vertex.x ∧
       contact.vertex.x ≤ body.bounds.minX + 3 * (body.bounds.maxX - body.bounds.minX) / 4 ∧
       body.bounds.maxY - 4 ≤ contact.vertex.y ∧
       contact.vertex.y ≤ body.bounds.maxY + 4) := by
  simp only [isGroundContact, isInside, Bool.and_eq_true, decide_eq_true_eq]
  constructor
  · rintro ⟨⟨⟨h1, h2⟩, h3⟩, h4⟩
    refine ⟨by linarith, by linarith, by linarith, by linarith⟩
  · rintro ⟨h1, h2, h3, h4⟩
    refine ⟨⟨⟨by linarith, by linarith⟩, by linarith⟩, by linarith⟩

/-- C6 counterexample: a `ServerSpatialComponent` currently in free mode
whose free-mode subcomponent is dirty and grid-mode subcomponent is clean
reports `isDirty = false` — the dirty read does not route through the
current subcomponent. -/
theorem serverSpatial_isDirty_ignores_mode_cex :
    serverSpatialW.currentMode = SpatialMode.FREE_MODE ∧
    serverSpatialW.freeMode.dirty = true ∧
    serverSpatialW.isDirty = false := by
  refine ⟨rfl, rfl, rfl⟩

/-- C6 (amended): `currentMode` selects exactly one subcomponent, and the
`CSpatial` accessors x, y and isDirty all route through the current
subcomponent; for `ServerSpatialComponent`, x and y route through the
current subcomponent but isDirty always returns the grid-mode dirty
flag. -/
theorem spatial_accessors_route_through_current_mode
    (c : CSpatial) (s : ServerSpatialComponent) :
    (c.currentMode = SpatialMode.GRID_MODE ↔ ¬c.currentMode = SpatialMode.FREE_MODE) ∧
    (c.currentMode = SpatialMode.GRID_MODE →
       c.isDirty = c.gridMode.dirty ∧ c.x = c.gridMode.x ∧ c.y = c.gridMode.y) ∧
    (c.currentMode = SpatialMode.FREE_MODE →
       c.isDirty = c.freeMode.dirty ∧ c.x = c.freeMode.x ∧ c.y = c.freeMode.y) ∧
    (s.currentMode = SpatialMode.GRID_MODE → s.x = s.gridMode.x ∧ s.y = s.gridMode.y) ∧
    (s.currentMode = SpatialMode.FREE_MODE → s.x = s.freeMode.x ∧ s.y = s.freeMode.y) ∧
    s.isDirty = s.gridMode.dirty := by
  cases hc : c.currentMode <;> cases hs : s.currentMode <;>
    simp [CSpatial.isDirty, CSpatial.x, CSpatial.y, ServerSpatialComponent.isDirty,
          ServerSpatialComponent.x, ServerSpatialComponent.y, hc, hs]

/-- Witness for the amended C6 theorem at concrete components. -/
theorem spatial_accessors_route_witness :
    cSpatialGridW.isDirty = cSpatialGridW.gridMode.dirty ∧
    serverSpatialW.isDirty = serverSpatialW.gridMode.dirty :=
  ⟨((spatial_accessors_route_through_current_mode cSpatialGridW serverSpatialW).2.1 rfl).1,
   (spatial_accessors_route_through_current_mode cSpatialGridW serverSpatialW).2.2.2.2.2⟩

/-- C9 counterexample: `playAnimation` on a sprite component with no
animations throws a `GameError` (modelled as `Except.error`) instead of
returning a boolean sentinel. -/
theorem playAnimation_unknown_raises_cex :
    playAnimation 1 ⟨[]⟩ "dig" =
      Except.error ⟨"Entity 1 has no animation dig"⟩ := rfl

/-- C9 (amended): an animation name absent from the sprite component's
animation map makes `playAnimation` throw a `GameError`; a present name
stages the animation and returns true. -/
theorem playAnimation_error_iff_unknown (entityId : EntityId) (c : CSprite)
    (name : String) :
    (c.animatedSprites.lookup name = none →
       playAnimation entityId c name =
         Except.error ⟨"Entity " ++ toString entityId ++ " has no animation " ++ name⟩) ∧
    (∀ anim, c.animatedSprites.lookup name = some anim →
       playAnimation entityId c name = Except.ok true) := by
  constructor
  · intro h
    simp [playAnimation, h]
  · intro anim h
    simp [playAnimation, h]

/-- Witness for the amended C9 theorem: both branches at concrete
inputs. -/
theorem playAnimation_error_iff_unknown_witness :
    playAnimation 1 ⟨[]⟩ "jump" =
      Except.error ⟨"Entity 1 has no animation jump"⟩ ∧
    playAnimation 2 ⟨[("dig", animW)]⟩ "dig" = Except.ok true :=
  ⟨(playAnimation_error_iff_unknown 1 ⟨[]⟩ "jump").1 rfl,
   (playAnimation_error_iff_unknown 2 ⟨[("dig", animW)]⟩ "dig").2 animW rfl⟩

/-- C10: after `addComponent`, `hasComponent` still answers false for the
stored entity id — the `in` operator tests the `Map` object's properties,
never its entries — while `getComponent` returns the stored component, so
the two public queries disagree. -/
theorem agent_hasComponent_getComponent_disagree (s : AgentSystem)
    (component : AgentComponent) :
    (s.addComponent component).hasComponent component.entityId = false ∧
    (s.addComponent component).getComponent component.entityId =
      Except.ok component := by
  constructor
  · rfl
  · simp [AgentSystem.getComponent, AgentSystem.addComponent, lookup_mapSet_self]

/-- C1: when the movement probe (entity centre plus half a block plus a
quarter block in the movement direction, floored to grid coordinates)
lands outside the gravity region, `moveAgent` consults the
mode-transition callback first, and if the transition fires the body's
velocity is left unmutated for that call. -/
theorem moveAgent_boundary_transition_skips_velocity
    (gravRegion : Span2d) (attemptFn : EntityId → ℚ → ℚ → Direction → Bool)
    (grounded : List (EntityId × Nat)) (c : FreeModeSubcomponent)
    (direction : Direction)
    (hout : gravRegion.contains (probeGrid c direction).1 (probeGrid c direction).2 = false)
    (hfire : attemptFn c.entityId (((probeGrid c direction).1 : ℚ) * BLOCK_SZ_WLD)
        (((probeGrid c direction).2 : ℚ) * BLOCK_SZ_WLD) direction = true) :
    (moveAgent gravRegion attemptFn grounded c direction).transitionChecked = true ∧
    (moveAgent gravRegion attemptFn grounded c direction).transitionFired = true ∧
    (moveAgent gravRegion attemptFn grounded c direction).velocity = c.body.velocity := by
  unfold moveAgent tryLeaveGravRegion
  simp [hout, hfire]

/-- Witness for C1: with no gravity region rows every probe is outside,
and a callback that fires leaves the witness body's velocity unchanged. -/
theorem moveAgent_boundary_transition_skips_velocity_witness :
    (moveAgent gravEmptyW (fun _ _ _ _ => true) [] freeCompW Direction.RIGHT).transitionChecked = true ∧
    (moveAgent gravEmptyW (fun _ _ _ _ => true) [] freeCompW Direction.RIGHT).transitionFired = true ∧
    (moveAgent gravEmptyW (fun _ _ _ _ => true) [] freeCompW Direction.RIGHT).velocity =
      freeCompW.body.velocity :=
  moveAgent_boundary_transition_skips_velocity gravEmptyW (fun _ _ _ _ => true) []
    freeCompW Direction.RIGHT rfl rfl

/-- C2: a `moveAgent` UP call that does not fire a mode transition returns
false and leaves the velocity unchanged when no grounded contact is
recorded for the entity, and returns true setting the vertical velocity
when one is recorded. -/
theorem moveAgent_up_requires_grounded
    (gravRegion : Span2d) (attemptFn : EntityId → ℚ → ℚ → Direction → Bool)
    (grounded : List (EntityId × Nat)) (c : FreeModeSubcomponent)
    (hnof : (tryLeaveGravRegion gravRegion attemptFn c Direction.UP).fired = false) :
    (bodyGrounded grounded c.entityId = false →
       (moveAgent gravRegion attemptFn grounded c Direction.UP).ret = false ∧
       (moveAgent gravRegion attemptFn grounded c Direction.UP).velocity = c.body.velocity) ∧
    (bodyGrounded grounded c.entityId = true →
       (moveAgent gravRegion attemptFn grounded c Direction.UP).ret = true ∧
       (moveAgent gravRegion attemptFn grounded c Direction.UP).velocity =
         ⟨c.body.velocity.x, -PLAYER_VELOCITY_V⟩) := by
  constructor
  · intro hg
    unfold moveAgent
    simp [hnof, hg]
  · intro hg
    unfold moveAgent
    simp [hnof, hg, directionToVector, PLAYER_VELOCITY_H, PLAYER_VELOCITY_V]

/-- Witness for C2: from `freeCompW` the UP probe stays inside
`gravRowNeg1W`, no grounded contact is recorded, and the call is
rejected with the velocity untouched. -/
theorem moveAgent_up_requires_grounded_witness :
    (moveAgent gravRowNeg1W (fun _ _ _ _ => true) [] freeCompW Direction.UP).ret = false ∧
    (moveAgent gravRowNeg1W (fun _ _ _ _ => true) [] freeCompW Direction.UP).velocity =
      freeCompW.body.velocity :=
  (moveAgent_up_requires_grounded gravRowNeg1W (fun _ _ _ _ => true) [] freeCompW
      (by norm_num [tryLeaveGravRegion, probeGrid, Span2d.contains, BLOCK_SZ_WLD,
                    directionToVector, vecMult, freeCompW, gravRowNeg1W])).1
    rfl

/-- C7: a committed free-mode move mutates exactly one velocity axis —
LEFT/RIGHT set the horizontal velocity to ∓6 keeping the vertical one,
UP while grounded sets the vertical velocity to -10 keeping the
horizontal one — and DOWN returns success mutating neither axis. -/
theorem moveAgent_single_axis_velocity
    (gravRegion : Span2d) (attemptFn : EntityId → ℚ → ℚ → Direction → Bool)
    (grounded : List (EntityId × Nat)) (c : FreeModeSubcomponent)
    (direction : Direction)
    (hnof : (tryLeaveGravRegion gravRegion attemptFn c direction).fired = false) :
    (direction = Direction.LEFT →
       (moveAgent gravRegion attemptFn grounded c direction).ret = true ∧
       (moveAgent gravRegion attemptFn grounded c direction).velocity =
         ⟨-PLAYER_VELOCITY_H, c.body.velocity.y⟩) ∧
    (direction = Direction.RIGHT →
       (moveAgent gravRegion attemptFn grounded c direction).ret = true ∧
       (moveAgent gravRegion attemptFn grounded c direction).velocity =
         ⟨PLAYER_VELOCITY_H, c.body.velocity.y⟩) ∧
    (direction = Direction.UP → bodyGrounded grounded c.entityId = true →
       (moveAgent gravRegion attemptFn grounded c direction).ret = true ∧
       (moveAgent gravRegion attemptFn grounded c direction).velocity =
         ⟨c.body.velocity.x, -PLAYER_VELOCITY_V⟩) ∧
    (direction = Direction.DOWN →
       (moveAgent gravRegion attemptFn grounded c direction).ret = true ∧
       (moveAgent gravRegion attemptFn grounded c direction).velocity =
         c.body.velocity) := by
  refine ⟨?_, ?_, ?_, ?_⟩
  · rintro rfl
    unfold moveAgent
    simp [hnof, directionToVector, PLAYER_VELOCITY_H, PLAYER_VELOCITY_V]
  · rintro rfl
    unfold moveAgent
    simp [hnof, directionToVector, PLAYER_VELOCITY_H, PLAYER_VELOCITY_V]
  · rintro rfl hg
    unfold moveAgent
    simp [hnof, hg, directionToVector, PLAYER_VELOCITY_H, PLAYER_VELOCITY_V]
  · rintro rfl
    unfold moveAgent
    simp [hnof]

/-- Witness for C7: the LEFT move from `freeCompW` inside `gravRow0W`
overrides the horizontal velocity and keeps the vertical one. -/
theorem moveAgent_single_axis_velocity_witness :
    (moveAgent gravRow0W (fun _ _ _ _ => true) [] freeCompW Direction.LEFT).ret = true ∧
    (moveAgent gravRow0W (fun _ _ _ _ => true) [] freeCompW Direction.LEFT).velocity =
      ⟨-PLAYER_VELOCITY_H, freeCompW.body.velocity.y⟩ :=
  (moveAgent_single_axis_velocity gravRow0W (fun _ _ _ _ => true) [] freeCompW
      Direction.LEFT
      (by norm_num [tryLeaveGravRegion, probeGrid, Span2d.contains, BLOCK_SZ_WLD,
                    directionToVector, vecMult, freeCompW, gravRow0W])).1
    rfl

/-- C3: for a pair of bodies both tracked in `_componentsByBodyId`, the
collisionActive handler posts exactly one ENTITY_COLLISION event when the
pair id first appears (and records the pair id), posts nothing further
while the pair id stays recorded, and the collisionEnd handler removes the
pair id so a later re-contact may emit again. -/
theorem entity_collision_event_once (st : ImplState) (pair : Pair)
    (ac bc : FreeModeSubcomponent) :
    (lookupByBody st pair.bodyAId = some ac →
     lookupByBody st pair.bodyBId = some bc →
     st.collisions.contains pair.id = false →
       (collisionActivePair st pair).events =
         st.events ++ [(ac.entityId, bc.entityId)] ∧
       (collisionActivePair st pair).collisions.contains pair.id = true) ∧
    (st.collisions.contains pair.id = true →
       (collisionActivePair st pair).events = st.events) ∧
    (collisionEndPair st pair).collisions.contains pair.id = false := by
  refine ⟨?_, ?_, ?_⟩
  · intro ha hb hn
    simp only [List.contains] at hn ⊢
    simp at hn
    unfold collisionActivePair
    simp [ha, hb, hn]
  · intro hc
    simp at hc
    unfold collisionActivePair
    simp [hc]
  · unfold collisionEndPair
    by_cases hc : pair.id ∈ st.collisions
    · simp [hc, List.mem_filter]
    · simp [hc]

/-- Witness for C3: in `stCollW` (no recorded pairs, both bodies tracked)
the active handler for `pairCollW` posts the one collision event and
records pair id 4. -/
theorem entity_collision_event_once_witness :
    (collisionActivePair stCollW pairCollW).events =
      stCollW.events ++ [(freeCompW.entityId, comp2W.entityId)] ∧
    (collisionActivePair stCollW pairCollW).collisions.contains pairCollW.id = true :=
  (entity_collision_event_once stCollW pairCollW freeCompW comp2W).1 rfl rfl rfl

/-- C4: the grounded record bookkeeping: a detected ground contact writes
that contact's id for the entity (whatever was stored before, so first
detection sets it and later ground contacts overwrite it); an ending
contact whose id equals the stored one clears the record; and a
collisionEnd pass in which no ending contact carries the stored id leaves
the record in place. -/
theorem grounded_record_set_and_cleared
    (a b : Option FreeModeSubcomponent) (ac : FreeModeSubcomponent)
    (grounded : List (EntityId × Nat)) (ct : Contact)
    (st : ImplState) (pair : Pair) (e : EntityId) (i : Nat) :
    (a = some ac → isGroundContact ac.body ct = true →
       (groundContactStep a b grounded ct).lookup ac.entityId = some ct.id) ∧
    (a = some ac → grounded.lookup ac.entityId = some ct.id →
       (groundedEndStep a b grounded ct).lookup ac.entityId = none) ∧
    (st.grounded.lookup e = some i → (∀ ct2 ∈ pair.contacts, ct2.id ≠ i) →
       (collisionEndPair st pair).grounded.lookup e = some i) := by
  refine ⟨?_, ?_, ?_⟩
  · rintro rfl hg
    unfold groundContactStep
    exact groundContactCheck_lookup_eq b _ ct ac.entityId
      (by simp [groundContactCheck, hg, lookup_mapSet_self])
  · rintro rfl hl
    unfold groundedEndStep
    exact groundedEndCheck_none b _ ct ac.entityId
      (by simp [groundedEndCheck, hl, lookup_mapDelete_self])
  · intro hl hne
    unfold collisionEndPair
    by_cases hc : pair.id ∈ st.collisions <;>
      simpa [hc] using
        foldl_groundedEndStep_preserves (lookupByBody st pair.bodyAId)
          (lookupByBody st pair.bodyBId) pair.contacts st.grounded e i hl hne

/-- Witness for C4: contact 9 inside `freeCompW`'s hot spot sets entity
1's record to 9; an ending contact with the stored id 9 clears it; and
`pairEndW`, whose only ending contact id differs from entity 2's stored
id 5, leaves `stEndW`'s record for entity 2 in place. -/
theorem grounded_record_set_and_cleared_witness :
    (groundContactStep (some freeCompW) none [] groundCtW).lookup
      freeCompW.entityId = some groundCtW.id ∧
    (groundedEndStep (some freeCompW) none [(1, 9)] groundCtW).lookup
      freeCompW.entityId = none ∧
    (collisionEndPair stEndW pairEndW).grounded.lookup 2 = some 5 := by
  refine ⟨?_, ?_, ?_⟩
  · exact (grounded_record_set_and_cleared (some freeCompW) none freeCompW []
      groundCtW stEndW pairEndW 2 5).1 rfl
      (by norm_num [isGroundContact, isInside, freeCompW, groundCtW])
  · exact (grounded_record_set_and_cleared (some freeCompW) none freeCompW [(1, 9)]
      groundCtW stEndW pairEndW 2 5).2.1 rfl rfl
  · exact (grounded_record_set_and_cleared (some freeCompW) none freeCompW []
      groundCtW stEndW pairEndW 2 5).2.2 rfl
      (by intro ct2 hct2; simp [pairEndW, groundCtW] at hct2; simp [hct2])

/-- C8: for well-formed body bounds and a nonnegative radius,
`entitiesWithinRadius(x, y, r)` contains exactly the entity ids whose
tracked body's bounding region intersects the closed square
[x-r, x+r] × [y-r, y+r]; bodies absent from the body-id table (such as
static fences) never contribute. -/
theorem entitiesWithinRadius_exactly_intersecting (st : ImplState)
    (x y r : ℚ) (e : EntityId)
    (hwf : ∀ b ∈ st.worldBodies,
      b.bounds.minX ≤ b.bounds.maxX ∧ b.bounds.minY ≤ b.bounds.maxY)
    (hr : 0 ≤ r) :
    e ∈ entitiesWithinRadius st x y r ↔
      ∃ b ∈ st.worldBodies,
        (∃ c, st.componentsByBodyId.lookup b.id = some c ∧ c.entityId = e) ∧
        RectIntersects b.bounds ⟨x - r, y - r, x + r, y + r⟩ := by
  unfold entitiesWithinRadius
  rw [mem_entitiesFold]
  simp only [List.not_mem_nil, false_or, queryRegion, List.mem_filter]
  constructor
  · rintro ⟨b, ⟨hbw, hov⟩, c, hc, he⟩
    refine ⟨b, hbw, ⟨c, hc, he⟩, ?_⟩
    exact (overlaps_iff_rectIntersects b.bounds ⟨x - r, y - r, x + r, y + r⟩
      (hwf b hbw).1 (hwf b hbw).2 (by simp; linarith) (by simp; linarith)).mp hov
  · rintro ⟨b, hbw, ⟨c, hc, he⟩, hint⟩
    refine ⟨b, ⟨hbw, ?_⟩, c, hc, he⟩
    exact (overlaps_iff_rectIntersects b.bounds ⟨x - r, y - r, x + r, y + r⟩
      (hwf b hbw).1 (hwf b hbw).2 (by simp; linarith) (by simp; linarith)).mpr hint

/-- Witness for C8: entity 1's tracked body with bounds [0,16]×[0,16]
intersects the square around (20, 8) with radius 5, so the query reports
it. -/
theorem entitiesWithinRadius_exactly_intersecting_witness :
    1 ∈ entitiesWithinRadius st8W 20 8 5 :=
  (entitiesWithinRadius_exactly_intersecting st8W 20 8 5 1
      (by intro b hb
          simp [st8W, freeCompW] at hb
          subst hb
          norm_num [freeCompW])
      (by norm_num)).mpr
    ⟨freeCompW.body, by simp [st8W], ⟨freeCompW, rfl, rfl⟩,
     16, 8, by norm_num [freeCompW]⟩

end Terrestria
